import Mathlib

/-!
# RelaWand sensor node: `hardware/examples/stm32_basic_example.cpp`

A shallow embedding of the firmware sketch.  Global and function-static
variables become fields of `DeviceState`; every call into the Arduino core, the
Wi-Fi stack, the HTTP client, the JSON library and the DHT driver reads its
result from an environment record, one field per call site; every observable
effect (serial line, HTTP request, pin write, delay) and every invocation of one
of the sketch's own functions is appended to a list of `Event`s.

Numeric conventions.
* `int` is a 32-bit signed integer, modelled by `Int`.
* `unsigned long` is a 32-bit unsigned integer, modelled by `Nat` reduced
  modulo `2 ^ 32`.
* `float` values are modelled by `FloatVal`: not-a-number, the two infinities, or
  a finite value carried as the rational number it denotes.  Only comparisons
  against exactly representable constants and the test `isnan` are performed on
  them, and both are exact on this representation.
-/

namespace RelaWand

/-! ## Floating-point values -/

/-- A value of C++ type `float`. -/
inductive FloatVal where
  | nan
  | negInf
  | posInf
  | finite (q : ℚ)
  deriving DecidableEq

namespace FloatVal

/-- The test `isnan(x)`. -/
def isnan : FloatVal → Bool
  | nan => true
  | _ => false

/-- IEEE comparison `x <= y`: false as soon as one operand is not-a-number. -/
def le : FloatVal → FloatVal → Bool
  | nan, _ => false
  | _, nan => false
  | negInf, _ => true
  | _, posInf => true
  | finite a, finite b => decide (a ≤ b)
  | finite _, negInf => false
  | posInf, finite _ => false
  | posInf, negInf => false

/-- IEEE comparison `x < y`: false as soon as one operand is not-a-number. -/
def lt : FloatVal → FloatVal → Bool
  | nan, _ => false
  | _, nan => false
  | posInf, _ => false
  | _, negInf => false
  | finite a, finite b => decide (a < b)
  | negInf, finite _ => true
  | negInf, posInf => true
  | finite _, posInf => true

/-- The comparison `x >= y`, that is `y <= x`. -/
def ge (x y : FloatVal) : Bool := le y x

/-- The comparison `x > y`, that is `y < x`. -/
def gt (x y : FloatVal) : Bool := lt y x

end FloatVal

/-! ## Data model -/

/-- The record `struct SensorData`. -/
structure SensorData where
  temperature : FloatVal
  humidity : FloatVal
  gasLevel : Int
  voltage : FloatVal
  current : FloatVal
  batteryLevel : Int
  signalStrength : Int
  deriving DecidableEq

/-- The lines the sketch writes to the serial port, one constructor per message,
with the values that are formatted into it. -/
inductive SerialMsg where
  | connectingToWiFi
  | dot
  | wifiConnected
  | wifiConnectionFailed
  | wifiDisconnected
  | deviceStarted
  | dhtReadingError
  | registrationResponse
  | registrationError (code : Int)
  | heartbeatSent
  | heartbeatError (code : Int)
  | sensorDataSent (temperature humidity : FloatVal) (gasLevel : Int)
  | sensorDataError (code : Int)
  | errorReported (message : String)
  | errorReportFailed (code : Int)
  | configurationUpdated (reportingInterval heartbeatInterval : Int)
  | configError (code : Int)
  | criticalTemperatureAlert (temperature : FloatVal)
  | criticalLowHumidityAlert (humidity : FloatVal)
  | criticalGasLevelAlert (gasLevel : Int)
  deriving DecidableEq

/-- The HTTP requests the sketch issues, with the content of their payload. -/
inductive Request where
  | postRegister (deviceId deviceName firmwareVersion : String)
  | postHeartbeat (batteryLevel signalStrength : Int) (firmwareVersion : String)
  | postSensorData (data : SensorData)
  | postError (errorCode errorMessage : String) (severity : Int)
  | getConfig
  deriving DecidableEq

/-- Invocations of the sketch's own functions, with their arguments. -/
inductive Call where
  | setupWiFi
  | readSensors
  | registerDevice
  | sendHeartbeat (data : SensorData)
  | sendSensorData (data : SensorData)
  | reportError (errorCode errorMessage : String) (severity : Int)
  | fetchDeviceConfig
  | checkAlertConditions (data : SensorData)
  | getBatteryLevel
  deriving DecidableEq

/-- What one run of a function leaves behind, in program order. -/
inductive Event where
  | serial (msg : SerialMsg)
  | http (req : Request)
  | wifiBegin
  | digitalWrite (high : Bool)
  | delay (ms : Nat)
  | call (c : Call)
  deriving DecidableEq

/-- The globals of the sketch together with the three function-static latches of
`checkAlertConditions`. -/
structure DeviceState where
  lastHeartbeat : Nat
  lastDataSend : Nat
  lastConfigFetch : Nat
  reportingInterval : Int
  heartbeatInterval : Int
  tempAlertSent : Bool
  humidityAlertSent : Bool
  gasAlertSent : Bool
  deriving DecidableEq

/-- The state the initialisers of the sketch establish. -/
def initialState : DeviceState where
  lastHeartbeat := 0
  lastDataSend := 0
  lastConfigFetch := 0
  reportingInterval := 60000
  heartbeatInterval := 30000
  tempAlertSent := false
  humidityAlertSent := false
  gasAlertSent := false

/-! ## `checkAlertConditions` -/

/-- The temperature block of `checkAlertConditions`. -/
def checkTemperature (data : SensorData) (s : DeviceState) : DeviceState × List Event :=
  if FloatVal.ge data.temperature (.finite 40) && !s.tempAlertSent then
    ({ s with tempAlertSent := true },
      [.serial (.criticalTemperatureAlert data.temperature)])
  else if FloatVal.lt data.temperature (.finite 35) then
    ({ s with tempAlertSent := false }, [])
  else
    (s, [])

/-- The humidity block of `checkAlertConditions`. -/
def checkHumidity (data : SensorData) (s : DeviceState) : DeviceState × List Event :=
  if FloatVal.le data.humidity (.finite 25) && !s.humidityAlertSent then
    ({ s with humidityAlertSent := true },
      [.serial (.criticalLowHumidityAlert data.humidity)])
  else if FloatVal.gt data.humidity (.finite 35) then
    ({ s with humidityAlertSent := false }, [])
  else
    (s, [])

/-- The gas block of `checkAlertConditions`. -/
def checkGas (data : SensorData) (s : DeviceState) : DeviceState × List Event :=
  if decide (data.gasLevel ≥ 300) && !s.gasAlertSent then
    ({ s with gasAlertSent := true },
      [.serial (.criticalGasLevelAlert data.gasLevel)])
  else if data.gasLevel < 250 then
    ({ s with gasAlertSent := false }, [])
  else
    (s, [])

/-- The function `checkAlertConditions(data)`: the three blocks in source order. -/
def checkAlertConditions (data : SensorData) (s : DeviceState) : DeviceState × List Event :=
  let r1 := checkTemperature data s
  let r2 := checkHumidity data r1.1
  let r3 := checkGas data r2.1
  (r3.1, .call (.checkAlertConditions data) :: (r1.2 ++ r2.2 ++ r3.2))

/-! ## Machine arithmetic -/

/-- The modulus of `unsigned long`. -/
def ulongModulus : Nat := 2 ^ 32

/-- The value an `unsigned long` takes when one is stored into it. -/
def millis (raw : Nat) : Nat := raw % ulongModulus

/-- The conversion of an `int` to `unsigned long`, as performed on the right-hand
side of `millis() - last > interval`. -/
def toULong (i : Int) : Nat := (i % (ulongModulus : Int)).toNat

/-- The `unsigned long` difference `now - last`. -/
def elapsed (now last : Nat) : Nat :=
  (now % ulongModulus + ulongModulus - last % ulongModulus) % ulongModulus

/-- Modelled from the spec: the Arduino core function `map`, which the sketch
calls and does not define.  The linear rescale of `x` from `[in_min, in_max]`
to `[out_min, out_max]` in integer arithmetic, the division truncating towards
zero. -/
def map (x in_min in_max out_min out_max : Int) : Int :=
  Int.tdiv ((x - in_min) * (out_max - out_min)) (in_max - in_min) + out_min

/-! ## JSON documents -/

/-- The content of a `DynamicJsonDocument` as `deserializeJson` leaves it; the
sketch discards the error result of that call. -/
inductive Json where
  | null
  | bool (b : Bool)
  | int (n : Int)
  | float (x : FloatVal)
  | str (s : String)
  | arr (items : List Json)
  | obj (members : List (String × Json))

namespace Json

/-- Modelled from the spec: the library subscript `v[key]`, which reaches the
"nested values" of the response: the member of that name, `null` when `v` is not
an object or has no such member. -/
def get (v : Json) (key : String) : Json :=
  match v with
  | obj members =>
    match members.lookup key with
    | some x => x
    | none => null
  | _ => null

/-- Modelled from the spec: the library comparison `v == true`, the "top-level
success indicator is true" of the spec; it holds of the boolean `true` only. -/
def isTrue : Json → Bool
  | bool true => true
  | _ => false

/-- Modelled from the spec: the library conversion of a variant to `JsonObject`:
the object itself, and a null object, which has no member, for anything else. -/
def asObject : Json → Json
  | obj members => obj members
  | _ => null

/-- Modelled from the spec: the library operator `v | dflt` at type `int`,
"defaulting each individually if absent": the value of `v` when `v` is an
integer representable as an `int`, and `dflt` otherwise. -/
def orDefault (v : Json) (dflt : Int) : Int :=
  match v with
  | int n => if -2147483648 ≤ n ∧ n ≤ 2147483647 then n else dflt
  | _ => dflt

end Json

/-! ## The environment of one run -/

/-- The results of the calls the sketch makes into its libraries, one field per
call site. -/
structure Env where
  /-- Line 59: `WiFi.status() == WL_CONNECTED` at the head of `loop`. -/
  wifiLoop : Bool
  /-- Lines 97 and 103: the successive results of `WiFi.status() == WL_CONNECTED`
  inside `setupWiFi`. -/
  wifiPoll : Nat → Bool
  /-- Line 120: `dht.readTemperature()`. -/
  dhtTemperature : FloatVal
  /-- Line 121: `dht.readHumidity()`. -/
  dhtHumidity : FloatVal
  /-- Line 124: `analogRead(MQ_PIN)`. -/
  mqRaw : Int
  /-- Line 327: `random(20, 100)`. -/
  randomLevel : Int
  /-- Line 131: `WiFi.RSSI()`. -/
  rssi : Int
  /-- Line 239: the connection test of `reportError`. -/
  wifiError : Bool
  /-- Line 252: the response code of the error report. -/
  errorResponse : Int
  /-- Line 145: the connection test of `registerDevice`. -/
  wifiRegister : Bool
  /-- Line 158: the response code of the registration. -/
  registerResponse : Int
  /-- Line 69: `millis()` in the heartbeat test. -/
  millisHeartbeat : Nat
  /-- Line 172: the connection test of `sendHeartbeat`. -/
  wifiHeartbeat : Bool
  /-- Line 185: the response code of the heartbeat. -/
  heartbeatResponse : Int
  /-- Line 71: `millis()` stored into `lastHeartbeat`. -/
  millisAfterHeartbeat : Nat
  /-- Line 75: `millis()` in the data test. -/
  millisData : Nat
  /-- Line 200: the connection test of `sendSensorData`. -/
  wifiData : Bool
  /-- Line 225: the response code of the data upload. -/
  dataResponse : Int
  /-- Line 77: `millis()` stored into `lastDataSend`. -/
  millisAfterData : Nat
  /-- Line 81: `millis()` in the configuration test. -/
  millisConfig : Nat
  /-- Line 265: the connection test of `fetchDeviceConfig`. -/
  wifiConfig : Bool
  /-- Line 269: the response code of the configuration request. -/
  configResponse : Int
  /-- Line 275: the document obtained from the response body. -/
  configDoc : Json
  /-- Line 83: `millis()` stored into `lastConfigFetch`. -/
  millisAfterConfig : Nat

/-! ## The functions of the sketch -/

/-- The constant `deviceId`. -/
def deviceId : String := "STM32_001"

/-- The constant `deviceName`. -/
def deviceName : String := "Forest Monitor A1"

/-- The constant `firmwareVersion`. -/
def firmwareVersion : String := "1.2.3"

/-- The `while` loop of `setupWiFi`, entered with `attempts` rounds done and
`remaining = 30 - attempts` rounds left; the status read at the `attempts`-th
evaluation of the loop condition is `poll attempts`.  Returns the final value of
`attempts` and the events of the rounds. -/
def waitForWiFi (poll : Nat → Bool) : Nat → Nat → Nat × List Event
  | 0, attempts => (attempts, [])
  | remaining + 1, attempts =>
    if poll attempts = false then
      let r := waitForWiFi poll remaining (attempts + 1)
      (r.1, .delay 1000 :: .serial .dot :: r.2)
    else
      (attempts, [])

/-- The function `setupWiFi()`. The status read by the final test is the one
after those read by the loop. -/
def setupWiFi (poll : Nat → Bool) : List Event :=
  let w := waitForWiFi poll 30 0
  [.call .setupWiFi, .wifiBegin, .serial .connectingToWiFi] ++ w.2 ++
    (if poll (w.1 + 1) then
      [.serial .wifiConnected, .digitalWrite true]
    else
      [.serial .wifiConnectionFailed, .digitalWrite false])

/-- The function `getBatteryLevel()`. -/
def getBatteryLevel (randomLevel : Int) : Int × List Event :=
  (randomLevel, [.call .getBatteryLevel])

/-- The function `reportError(errorCode, errorMessage, severity)`. -/
def reportError (connected : Bool) (httpResponseCode : Int)
    (errorCode errorMessage : String) (severity : Int) : List Event :=
  .call (.reportError errorCode errorMessage severity) ::
    (if connected then
      [.http (.postError errorCode errorMessage severity),
       if httpResponseCode = 200 then .serial (.errorReported errorMessage)
       else .serial (.errorReportFailed httpResponseCode)]
    else [])

/-- The `float` nearest to `3.3`. -/
def voltageAssumed : FloatVal := .finite (13841203 / 4194304)

/-- The `float` nearest to `0.15`. -/
def currentEstimated : FloatVal := .finite (10066330 / 67108864)

/-- The function `readSensors()`. -/
def readSensors (env : Env) : SensorData × List Event :=
  let battery := getBatteryLevel env.randomLevel
  let data : SensorData :=
    { temperature := env.dhtTemperature
      humidity := env.dhtHumidity
      gasLevel := map env.mqRaw 0 1023 0 500
      voltage := voltageAssumed
      current := currentEstimated
      batteryLevel := battery.1
      signalStrength := env.rssi }
  if data.temperature.isnan || data.humidity.isnan then
    ({ data with temperature := .finite (-999), humidity := .finite (-999) },
      .call .readSensors :: battery.2 ++ .serial .dhtReadingError ::
        reportError env.wifiError env.errorResponse "DHT_ERROR" "DHT22 sensor not responding" 6)
  else
    (data, .call .readSensors :: battery.2)

/-- The function `registerDevice()`. -/
def registerDevice (connected : Bool) (httpResponseCode : Int) : List Event :=
  .call .registerDevice ::
    (if connected then
      [.http (.postRegister deviceId deviceName firmwareVersion),
       if httpResponseCode > 0 then .serial .registrationResponse
       else .serial (.registrationError httpResponseCode)]
    else [])

/-- The function `sendHeartbeat(data)`. -/
def sendHeartbeat (connected : Bool) (httpResponseCode : Int) (data : SensorData) :
    List Event :=
  .call (.sendHeartbeat data) ::
    (if connected then
      .http (.postHeartbeat data.batteryLevel data.signalStrength firmwareVersion) ::
        (if httpResponseCode = 200 then [.serial .heartbeatSent, .digitalWrite true]
         else [.serial (.heartbeatError httpResponseCode), .digitalWrite false])
    else [])

/-- The function `sendSensorData(data)`. -/
def sendSensorData (connected : Bool) (httpResponseCode : Int) (data : SensorData) :
    List Event :=
  .call (.sendSensorData data) ::
    (if connected then
      [.http (.postSensorData data),
       if httpResponseCode = 201 then
         .serial (.sensorDataSent data.temperature data.humidity data.gasLevel)
       else .serial (.sensorDataError httpResponseCode)]
    else [])

/-- The function `fetchDeviceConfig()`. -/
def fetchDeviceConfig (connected : Bool) (httpResponseCode : Int) (doc : Json)
    (s : DeviceState) : DeviceState × List Event :=
  if connected then
    if httpResponseCode = 200 then
      if (doc.get "success").isTrue then
        let config := (doc.get "data").asObject
        let s1 := { s with reportingInterval := (config.get "reportingInterval").orDefault 60000 }
        let s2 := { s1 with heartbeatInterval := (config.get "heartbeatInterval").orDefault 30000 }
        (s2, [.call .fetchDeviceConfig, .http .getConfig,
              .serial (.configurationUpdated s2.reportingInterval s2.heartbeatInterval)])
      else
        (s, [.call .fetchDeviceConfig, .http .getConfig])
    else
      (s, [.call .fetchDeviceConfig, .http .getConfig, .serial (.configError httpResponseCode)])
  else
    (s, [.call .fetchDeviceConfig])

/-- Lines 68 to 72 of `loop`: the heartbeat. -/
def heartbeatStep (env : Env) (data : SensorData) (s : DeviceState) :
    DeviceState × List Event :=
  if elapsed (millis env.millisHeartbeat) s.lastHeartbeat > toULong s.heartbeatInterval then
    ({ s with lastHeartbeat := millis env.millisAfterHeartbeat },
      sendHeartbeat env.wifiHeartbeat env.heartbeatResponse data)
  else
    (s, [])

/-- Lines 74 to 78 of `loop`: the sensor data upload. -/
def dataStep (env : Env) (data : SensorData) (s : DeviceState) : DeviceState × List Event :=
  if elapsed (millis env.millisData) s.lastDataSend > toULong s.reportingInterval then
    ({ s with lastDataSend := millis env.millisAfterData },
      sendSensorData env.wifiData env.dataResponse data)
  else
    (s, [])

/-- Lines 80 to 84 of `loop`: the configuration fetch. -/
def configStep (env : Env) (s : DeviceState) : DeviceState × List Event :=
  if elapsed (millis env.millisConfig) s.lastConfigFetch > toULong 600000 then
    let f := fetchDeviceConfig env.wifiConfig env.configResponse env.configDoc s
    ({ f.1 with lastConfigFetch := millis env.millisAfterConfig }, f.2)
  else
    (s, [])

/-- The function `loop()`: one tick. -/
def loop (env : Env) (s : DeviceState) : DeviceState × List Event :=
  if env.wifiLoop = false then
    (s, .serial .wifiDisconnected :: setupWiFi env.wifiPoll)
  else
    let r := readSensors env
    let h := heartbeatStep env r.1 s
    let d := dataStep env r.1 h.1
    let c := configStep env d.1
    let a := checkAlertConditions r.1 c.1
    (a.1, r.2 ++ h.2 ++ d.2 ++ c.2 ++ a.2 ++ [.delay 1000])

/-- The state after `checkAlertConditions` has been called on each reading of a
list in turn. -/
def stateAfter (s : DeviceState) (ds : List SensorData) : DeviceState :=
  ds.foldl (fun st d => (checkAlertConditions d st).1) s

/-- The state in which the call for the reading at index `i` starts. -/
def stateBefore (s : DeviceState) (ds : List SensorData) (i : Nat) : DeviceState :=
  stateAfter s (ds.take i)

/-- The events of the call for the reading at index `i`; none past the end. -/
def eventsAt (s : DeviceState) (ds : List SensorData) (i : Nat) : List Event :=
  match ds[i]? with
  | some d => (checkAlertConditions d (stateBefore s ds i)).2
  | none => []

/-- Whether an event is the critical temperature alert line. -/
def Event.isTemperatureAlert : Event → Bool
  | .serial (.criticalTemperatureAlert _) => true
  | _ => false

/-- Whether an event is the critical low humidity alert line. -/
def Event.isHumidityAlert : Event → Bool
  | .serial (.criticalLowHumidityAlert _) => true
  | _ => false

/-- Whether an event is the critical gas level alert line. -/
def Event.isGasAlert : Event → Bool
  | .serial (.criticalGasLevelAlert _) => true
  | _ => false

/-- Whether an event is an HTTP request. -/
def Event.isRequest : Event → Bool
  | .http _ => true
  | _ => false

/-- Whether an event is an invocation of `readSensors`. -/
def Event.isReadSensors : Event → Bool
  | .call .readSensors => true
  | _ => false

/-- Whether an event is an invocation of `reportError`. -/
def Event.isReportError : Event → Bool
  | .call (.reportError _ _ _) => true
  | _ => false

/-- Whether an event is an invocation of `sendHeartbeat`. -/
def Event.isSendHeartbeat : Event → Bool
  | .call (.sendHeartbeat _) => true
  | _ => false

/-- Whether an event is an invocation of `sendSensorData`. -/
def Event.isSendSensorData : Event → Bool
  | .call (.sendSensorData _) => true
  | _ => false

/-- Whether an event is an invocation of `fetchDeviceConfig`. -/
def Event.isFetchDeviceConfig : Event → Bool
  | .call .fetchDeviceConfig => true
  | _ => false

/-- The call for the reading at index `i` emits the temperature alert. -/
def tempAlertAt (s : DeviceState) (ds : List SensorData) (i : Nat) : Bool :=
  (eventsAt s ds i).any Event.isTemperatureAlert

/-- The call for the reading at index `i` emits the humidity alert. -/
def humidityAlertAt (s : DeviceState) (ds : List SensorData) (i : Nat) : Bool :=
  (eventsAt s ds i).any Event.isHumidityAlert

/-- The call for the reading at index `i` emits the gas alert. -/
def gasAlertAt (s : DeviceState) (ds : List SensorData) (i : Nat) : Bool :=
  (eventsAt s ds i).any Event.isGasAlert

/-- The indices, in increasing order, at which the temperature alert is emitted. -/
def tempAlertIndices (s : DeviceState) (ds : List SensorData) : List Nat :=
  (List.range ds.length).filter (tempAlertAt s ds)

/-- A reading with the given temperature, its other fields taken from `d`. -/
def withTemperature (d : SensorData) (t : ℚ) : SensorData :=
  { d with temperature := .finite t }

/-- A reading with the given temperature, humidity and gas level. -/
def reading (t h : ℚ) (g : Int) : SensorData :=
  { temperature := .finite t
    humidity := .finite h
    gasLevel := g
    voltage := voltageAssumed
    current := currentEstimated
    batteryLevel := 50
    signalStrength := -60 }

/-- Five readings with temperatures 30, 41, 36, 39, 41. -/
def fiveReadings : List SensorData :=
  [reading 30 50 0, reading 41 50 0, reading 36 50 0, reading 39 50 0, reading 41 50 0]

/-- Three readings: all three quantities critical, then reset, then critical. -/
def threeReadings : List SensorData :=
  [reading 41 20 300, reading 30 40 100, reading 41 20 300]

/-- A tick at time `t` with the link up, healthy sensors, every request answered
with its success code and an empty configuration document. -/
def tickAt (t : Nat) : Env where
  wifiLoop := true
  wifiPoll := fun _ => true
  dhtTemperature := .finite 28
  dhtHumidity := .finite 60
  mqRaw := 200
  randomLevel := 50
  rssi := -60
  wifiError := true
  errorResponse := 200
  wifiRegister := true
  registerResponse := 200
  millisHeartbeat := t
  wifiHeartbeat := true
  heartbeatResponse := 200
  millisAfterHeartbeat := t
  millisData := t
  wifiData := true
  dataResponse := 201
  millisAfterData := t
  millisConfig := t
  wifiConfig := true
  configResponse := 200
  configDoc := .null
  millisAfterConfig := t

/-- The body `{"success": true, "data": {"reportingInterval": 120000}}`. -/
def reportingOnlyDoc : Json :=
  .obj [("success", .bool true), ("data", .obj [("reportingInterval", .int 120000)])]

/-- The body `{"success": false, "data": {"reportingInterval": 5000,
"heartbeatInterval": 7000}}`. -/
def refusedDoc : Json :=
  .obj [("success", .bool false),
    ("data", .obj [("reportingInterval", .int 5000), ("heartbeatInterval", .int 7000)])]

/-- A state whose two intervals an earlier fetch has set to 90000 and 15000. -/
def tunedState : DeviceState :=
  { initialState with reportingInterval := 90000, heartbeatInterval := 15000 }

/-- A tick that finds the link down and whose reconnection attempts all fail. -/
def linkDownTick : Env :=
  { tickAt 5000 with wifiLoop := false, wifiPoll := fun _ => false }

/-- A connected tick at time 5000 whose temperature read is not-a-number. -/
def nanTick : Env :=
  { tickAt 5000 with dhtTemperature := .nan }

theorem checkTemperature_latch (d : SensorData) (s : DeviceState) :
    (checkTemperature d s).1.tempAlertSent =
      if FloatVal.ge d.temperature (.finite 40) && !s.tempAlertSent then true
      else if FloatVal.lt d.temperature (.finite 35) then false else s.tempAlertSent := by
  unfold checkTemperature
  split <;> [rfl; (split <;> rfl)]

theorem checkTemperature_events (d : SensorData) (s : DeviceState) :
    (checkTemperature d s).2 =
      if FloatVal.ge d.temperature (.finite 40) && !s.tempAlertSent then
        [.serial (.criticalTemperatureAlert d.temperature)] else [] := by
  unfold checkTemperature
  split <;> [rfl; (split <;> rfl)]

theorem checkTemperature_frame (d : SensorData) (s : DeviceState) :
    (checkTemperature d s).1 =
      { s with tempAlertSent := (checkTemperature d s).1.tempAlertSent } := by
  unfold checkTemperature
  split <;> [rfl; (split <;> rfl)]

theorem checkHumidity_latch (d : SensorData) (s : DeviceState) :
    (checkHumidity d s).1.humidityAlertSent =
      if FloatVal.le d.humidity (.finite 25) && !s.humidityAlertSent then true
      else if FloatVal.gt d.humidity (.finite 35) then false else s.humidityAlertSent := by
  unfold checkHumidity
  split <;> [rfl; (split <;> rfl)]

theorem checkHumidity_events (d : SensorData) (s : DeviceState) :
    (checkHumidity d s).2 =
      if FloatVal.le d.humidity (.finite 25) && !s.humidityAlertSent then
        [.serial (.criticalLowHumidityAlert d.humidity)] else [] := by
  unfold checkHumidity
  split <;> [rfl; (split <;> rfl)]

theorem checkHumidity_frame (d : SensorData) (s : DeviceState) :
    (checkHumidity d s).1 =
      { s with humidityAlertSent := (checkHumidity d s).1.humidityAlertSent } := by
  unfold checkHumidity
  split <;> [rfl; (split <;> rfl)]

theorem checkGas_latch (d : SensorData) (s : DeviceState) :
    (checkGas d s).1.gasAlertSent =
      if decide (d.gasLevel ≥ 300) && !s.gasAlertSent then true
      else if d.gasLevel < 250 then false else s.gasAlertSent := by
  unfold checkGas
  split <;> [rfl; (split <;> rfl)]

theorem checkGas_events (d : SensorData) (s : DeviceState) :
    (checkGas d s).2 =
      if decide (d.gasLevel ≥ 300) && !s.gasAlertSent then
        [.serial (.criticalGasLevelAlert d.gasLevel)] else [] := by
  unfold checkGas
  split <;> [rfl; (split <;> rfl)]

theorem checkGas_frame (d : SensorData) (s : DeviceState) :
    (checkGas d s).1 = { s with gasAlertSent := (checkGas d s).1.gasAlertSent } := by
  unfold checkGas
  split <;> [rfl; (split <;> rfl)]

/-- The state `checkAlertConditions` returns: the three latches move as their
blocks say, the other fields stay. -/
theorem checkAlertConditions_state (d : SensorData) (s : DeviceState) :
    (checkAlertConditions d s).1 =
      { s with
        tempAlertSent := (checkTemperature d s).1.tempAlertSent
        humidityAlertSent := (checkHumidity d s).1.humidityAlertSent
        gasAlertSent := (checkGas d s).1.gasAlertSent } := by
  simp only [checkAlertConditions]
  rw [checkGas_frame, checkHumidity_frame, checkTemperature_frame]
  simp [checkGas_latch, checkHumidity_latch]

theorem checkAlertConditions_tempAlert (d : SensorData) (s : DeviceState) :
    (checkAlertConditions d s).2.any Event.isTemperatureAlert =
      (FloatVal.ge d.temperature (.finite 40) && !s.tempAlertSent) := by
  simp only [checkAlertConditions, checkTemperature_events, checkHumidity_events,
    checkGas_events]
  cases h : (FloatVal.ge d.temperature (.finite 40) && !s.tempAlertSent) <;>
    simp [Event.isTemperatureAlert, apply_ite (List.any · Event.isTemperatureAlert)]

theorem checkAlertConditions_humidityAlert (d : SensorData) (s : DeviceState) :
    (checkAlertConditions d s).2.any Event.isHumidityAlert =
      (FloatVal.le d.humidity (.finite 25) && !s.humidityAlertSent) := by
  simp only [checkAlertConditions, checkTemperature_events, checkHumidity_events,
    checkGas_events]
  rw [checkTemperature_frame]
  cases h : (FloatVal.le d.humidity (.finite 25) && !s.humidityAlertSent) <;>
    simp [Event.isHumidityAlert, apply_ite (List.any · Event.isHumidityAlert), h]

theorem checkAlertConditions_gasAlert (d : SensorData) (s : DeviceState) :
    (checkAlertConditions d s).2.any Event.isGasAlert =
      (decide (d.gasLevel ≥ 300) && !s.gasAlertSent) := by
  simp only [checkAlertConditions, checkTemperature_events, checkHumidity_events,
    checkGas_events]
  rw [checkHumidity_frame, checkTemperature_frame]
  cases h : (decide (d.gasLevel ≥ 300) && !s.gasAlertSent) <;>
    simp [Event.isGasAlert, apply_ite (List.any · Event.isGasAlert), h]

/-! ## Runs of `checkAlertConditions` -/

theorem stateBefore_zero (s : DeviceState) (ds : List SensorData) :
    stateBefore s ds 0 = s := by
  simp [stateBefore, stateAfter]

theorem stateBefore_succ_of_some (s : DeviceState) (ds : List SensorData) (i : Nat)
    (d : SensorData) (h : ds[i]? = some d) :
    stateBefore s ds (i + 1) = (checkAlertConditions d (stateBefore s ds i)).1 := by
  simp [stateBefore, stateAfter, List.take_succ, h, List.foldl_append]

theorem stateBefore_succ_of_none (s : DeviceState) (ds : List SensorData) (i : Nat)
    (h : ds[i]? = none) : stateBefore s ds (i + 1) = stateBefore s ds i := by
  simp [stateBefore, stateAfter, List.take_succ, h]

theorem stateBefore_cons (s : DeviceState) (d : SensorData) (ds : List SensorData) (i : Nat) :
    stateBefore s (d :: ds) (i + 1) = stateBefore (checkAlertConditions d s).1 ds i := by
  simp [stateBefore, stateAfter]

/-- A latch that is armed at step `m` and unarmed at a later step `n` went through
a step at which its reset condition held. -/
theorem reset_between (armed reset : Nat → Bool)
    (hstep : ∀ n, armed n = true → armed (n + 1) = false → reset n = true)
    (m n : Nat) (hmn : m ≤ n) (hm : armed m = true) (hn : armed n = false) :
    ∃ k, m ≤ k ∧ k < n ∧ reset k = true := by
  induction n with
  | zero =>
    have : m = 0 := Nat.le_zero.mp hmn
    subst this
    rw [hm] at hn
    cases hn
  | succ n ih =>
    rcases Nat.lt_or_ge m (n + 1) with hlt | hge
    · cases hprev : armed n with
      | true => exact ⟨n, Nat.lt_succ_iff.mp hlt, Nat.lt_succ_self n, hstep n hprev hn⟩
      | false =>
        obtain ⟨k, h1, h2, h3⟩ := ih (Nat.lt_succ_iff.mp hlt) hprev
        exact ⟨k, h1, Nat.lt_succ_of_lt h2, h3⟩
    · have : m = n + 1 := Nat.le_antisymm hmn hge
      subst this
      rw [hm] at hn
      cases hn

/-! ## The temperature latch along a run -/

theorem temp_disarm (s : DeviceState) (ds : List SensorData) (i : Nat)
    (h1 : (stateBefore s ds i).tempAlertSent = true)
    (h2 : (stateBefore s ds (i + 1)).tempAlertSent = false) :
    ∃ d, ds[i]? = some d ∧ FloatVal.lt d.temperature (.finite 35) = true := by
  cases hd : ds[i]? with
  | none =>
    rw [stateBefore_succ_of_none s ds i hd, h1] at h2
    cases h2
  | some d =>
    refine ⟨d, rfl, ?_⟩
    rw [stateBefore_succ_of_some s ds i d hd, checkAlertConditions_state] at h2
    simp only [checkTemperature_latch, h1] at h2
    cases hlt : FloatVal.lt d.temperature (.finite 35) with
    | true => rfl
    | false => simp [hlt] at h2

theorem temp_alert (s : DeviceState) (ds : List SensorData) (i : Nat)
    (h : tempAlertAt s ds i = true) :
    ∃ d, ds[i]? = some d ∧ FloatVal.ge d.temperature (.finite 40) = true ∧
      (stateBefore s ds i).tempAlertSent = false ∧
      (stateBefore s ds (i + 1)).tempAlertSent = true := by
  unfold tempAlertAt eventsAt at h
  cases hd : ds[i]? with
  | none => simp [hd] at h
  | some d =>
    simp only [hd, checkAlertConditions_tempAlert, Bool.and_eq_true, Bool.not_eq_true'] at h
    refine ⟨d, rfl, h.1, h.2, ?_⟩
    rw [stateBefore_succ_of_some s ds i d hd, checkAlertConditions_state]
    simp [checkTemperature_latch, h.1, h.2]

theorem temp_between (s : DeviceState) (ds : List SensorData) (i j : Nat) (hij : i < j)
    (hi : tempAlertAt s ds i = true) (hj : tempAlertAt s ds j = true) :
    ∃ k d, i < k ∧ k < j ∧ ds[k]? = some d ∧
      FloatVal.lt d.temperature (.finite 35) = true := by
  obtain ⟨_, _, _, _, hi1⟩ := temp_alert s ds i hi
  obtain ⟨_, _, _, hj0, _⟩ := temp_alert s ds j hj
  obtain ⟨k, hk1, hk2, hk3⟩ := reset_between
    (fun n => (stateBefore s ds n).tempAlertSent)
    (fun n => match ds[n]? with
      | some d => FloatVal.lt d.temperature (.finite 35)
      | none => false)
    (fun n h1 h2 => by
      obtain ⟨d, hd, hr⟩ := temp_disarm s ds n h1 h2
      simp [hd, hr])
    (i + 1) j hij hi1 hj0
  cases hd : ds[k]? with
  | none => simp [hd] at hk3
  | some d =>
    simp only [hd] at hk3
    exact ⟨k, d, hk1, hk2, hd, hk3⟩

/-! ## The humidity latch along a run -/

theorem humidity_disarm (s : DeviceState) (ds : List SensorData) (i : Nat)
    (h1 : (stateBefore s ds i).humidityAlertSent = true)
    (h2 : (stateBefore s ds (i + 1)).humidityAlertSent = false) :
    ∃ d, ds[i]? = some d ∧ FloatVal.gt d.humidity (.finite 35) = true := by
  cases hd : ds[i]? with
  | none =>
    rw [stateBefore_succ_of_none s ds i hd, h1] at h2
    cases h2
  | some d =>
    refine ⟨d, rfl, ?_⟩
    rw [stateBefore_succ_of_some s ds i d hd, checkAlertConditions_state] at h2
    simp only [checkHumidity_latch, h1] at h2
    cases hgt : FloatVal.gt d.humidity (.finite 35) with
    | true => rfl
    | false => simp [hgt] at h2

theorem humidity_alert (s : DeviceState) (ds : List SensorData) (i : Nat)
    (h : humidityAlertAt s ds i = true) :
    ∃ d, ds[i]? = some d ∧ FloatVal.le d.humidity (.finite 25) = true ∧
      (stateBefore s ds i).humidityAlertSent = false ∧
      (stateBefore s ds (i + 1)).humidityAlertSent = true := by
  unfold humidityAlertAt eventsAt at h
  cases hd : ds[i]? with
  | none => simp [hd] at h
  | some d =>
    simp only [hd, checkAlertConditions_humidityAlert, Bool.and_eq_true, Bool.not_eq_true'] at h
    refine ⟨d, rfl, h.1, h.2, ?_⟩
    rw [stateBefore_succ_of_some s ds i d hd, checkAlertConditions_state]
    simp [checkHumidity_latch, h.1, h.2]

theorem humidity_between (s : DeviceState) (ds : List SensorData) (i j : Nat) (hij : i < j)
    (hi : humidityAlertAt s ds i = true) (hj : humidityAlertAt s ds j = true) :
    ∃ k d, i < k ∧ k < j ∧ ds[k]? = some d ∧
      FloatVal.gt d.humidity (.finite 35) = true := by
  obtain ⟨_, _, _, _, hi1⟩ := humidity_alert s ds i hi
  obtain ⟨_, _, _, hj0, _⟩ := humidity_alert s ds j hj
  obtain ⟨k, hk1, hk2, hk3⟩ := reset_between
    (fun n => (stateBefore s ds n).humidityAlertSent)
    (fun n => match ds[n]? with
      | some d => FloatVal.gt d.humidity (.finite 35)
      | none => false)
    (fun n h1 h2 => by
      obtain ⟨d, hd, hr⟩ := humidity_disarm s ds n h1 h2
      simp [hd, hr])
    (i + 1) j hij hi1 hj0
  cases hd : ds[k]? with
  | none => simp [hd] at hk3
  | some d =>
    simp only [hd] at hk3
    exact ⟨k, d, hk1, hk2, hd, hk3⟩

/-! ## The gas latch along a run -/

theorem gas_disarm (s : DeviceState) (ds : List SensorData) (i : Nat)
    (h1 : (stateBefore s ds i).gasAlertSent = true)
    (h2 : (stateBefore s ds (i + 1)).gasAlertSent = false) :
    ∃ d, ds[i]? = some d ∧ d.gasLevel < 250 := by
  cases hd : ds[i]? with
  | none =>
    rw [stateBefore_succ_of_none s ds i hd, h1] at h2
    cases h2
  | some d =>
    refine ⟨d, rfl, ?_⟩
    rw [stateBefore_succ_of_some s ds i d hd, checkAlertConditions_state] at h2
    simp only [checkGas_latch, h1] at h2
    cases hlt : decide (d.gasLevel < 250) with
    | true => exact of_decide_eq_true hlt
    | false =>
      have hn : ¬ d.gasLevel < 250 := of_decide_eq_false hlt
      simp [hn] at h2

theorem gas_alert (s : DeviceState) (ds : List SensorData) (i : Nat)
    (h : gasAlertAt s ds i = true) :
    ∃ d, ds[i]? = some d ∧ d.gasLevel ≥ 300 ∧
      (stateBefore s ds i).gasAlertSent = false ∧
      (stateBefore s ds (i + 1)).gasAlertSent = true := by
  unfold gasAlertAt eventsAt at h
  cases hd : ds[i]? with
  | none => simp [hd] at h
  | some d =>
    simp only [hd, checkAlertConditions_gasAlert, Bool.and_eq_true, Bool.not_eq_true'] at h
    refine ⟨d, rfl, of_decide_eq_true h.1, h.2, ?_⟩
    rw [stateBefore_succ_of_some s ds i d hd, checkAlertConditions_state]
    simp [checkGas_latch, h.1, h.2]

theorem gas_between (s : DeviceState) (ds : List SensorData) (i j : Nat) (hij : i < j)
    (hi : gasAlertAt s ds i = true) (hj : gasAlertAt s ds j = true) :
    ∃ k d, i < k ∧ k < j ∧ ds[k]? = some d ∧
      d.gasLevel < 250 := by
  obtain ⟨_, _, _, _, hi1⟩ := gas_alert s ds i hi
  obtain ⟨_, _, _, hj0, _⟩ := gas_alert s ds j hj
  obtain ⟨k, hk1, hk2, hk3⟩ := reset_between
    (fun n => (stateBefore s ds n).gasAlertSent)
    (fun n => match ds[n]? with
      | some d => decide (d.gasLevel < 250)
      | none => false)
    (fun n h1 h2 => by
      obtain ⟨d, hd, hr⟩ := gas_disarm s ds n h1 h2
      simp [hd, hr])
    (i + 1) j hij hi1 hj0
  cases hd : ds[k]? with
  | none => simp [hd] at hk3
  | some d =>
    simp only [hd] at hk3
    exact ⟨k, d, hk1, hk2, hd, of_decide_eq_true hk3⟩

/-! ## Claims on `checkAlertConditions` -/

/-- Claim C1, as amended: starting with the temperature latch unarmed, feeding
`checkAlertConditions` readings with temperatures 30, 41, 36, 39, 41 in that
order, whatever their other fields and whatever the rest of the state, emits the
critical temperature alert at index 1 and at no other index: 36 and 39 are not
below the reset threshold 35, so the latch is still armed at index 4. -/
theorem c1_alert_only_at_index_one (s : DeviceState) (d0 d1 d2 d3 d4 : SensorData) :
    tempAlertIndices { s with tempAlertSent := false }
      [withTemperature d0 30, withTemperature d1 41, withTemperature d2 36,
       withTemperature d3 39, withTemperature d4 41] = [1] := by
  norm_num [tempAlertIndices, List.range, List.range.loop, List.filter,
    tempAlertAt, eventsAt, stateBefore_cons, stateBefore_zero,
    checkAlertConditions_tempAlert, checkAlertConditions_state, checkTemperature_latch,
    withTemperature, FloatVal.ge, FloatVal.le, FloatVal.lt, FloatVal.gt]

/-- Claim C1, refuted as stated: from the initial state, whose temperature latch
is unarmed, the five readings with temperatures 30, 41, 36, 39, 41 emit the
temperature alert at index 1 and emit none at index 4, where the latch is still
armed. -/
theorem c1_no_alert_at_index_four :
    initialState.tempAlertSent = false ∧
    fiveReadings.map (fun d => d.temperature) =
      [.finite 30, .finite 41, .finite 36, .finite 39, .finite 41] ∧
    tempAlertAt initialState fiveReadings 1 = true ∧
    tempAlertAt initialState fiveReadings 4 = false ∧
    (stateBefore initialState fiveReadings 4).tempAlertSent = true := by
  decide

/-- Claim C8: along every run of `checkAlertConditions` over a list of readings,
for each of the temperature, humidity and gas latches: (1) the latch goes from
armed before the reading at index `i` to unarmed after it only if that reading
meets the reset condition (temperature < 35.0, humidity > 35.0, gas < 250);
(2) an alert is emitted at index `i` only if that reading meets the critical
condition (temperature >= 40.0, humidity <= 25.0, gas >= 300) and the latch is
unarmed before it; (3) between two emissions of the same alert, at indices
`i < j`, some reading at an index strictly between meets the reset condition. -/
theorem c8_hysteresis (s : DeviceState) (ds : List SensorData) (i : Nat) :
    ((stateBefore s ds i).tempAlertSent = true →
      (stateBefore s ds (i + 1)).tempAlertSent = false →
      ∃ d, ds[i]? = some d ∧ FloatVal.lt d.temperature (.finite 35) = true) ∧
    (tempAlertAt s ds i = true →
      ∃ d, ds[i]? = some d ∧ FloatVal.ge d.temperature (.finite 40) = true ∧
        (stateBefore s ds i).tempAlertSent = false) ∧
    (∀ j, i < j → tempAlertAt s ds i = true → tempAlertAt s ds j = true →
      ∃ k d, i < k ∧ k < j ∧ ds[k]? = some d ∧
        FloatVal.lt d.temperature (.finite 35) = true) ∧
    ((stateBefore s ds i).humidityAlertSent = true →
      (stateBefore s ds (i + 1)).humidityAlertSent = false →
      ∃ d, ds[i]? = some d ∧ FloatVal.gt d.humidity (.finite 35) = true) ∧
    (humidityAlertAt s ds i = true →
      ∃ d, ds[i]? = some d ∧ FloatVal.le d.humidity (.finite 25) = true ∧
        (stateBefore s ds i).humidityAlertSent = false) ∧
    (∀ j, i < j → humidityAlertAt s ds i = true → humidityAlertAt s ds j = true →
      ∃ k d, i < k ∧ k < j ∧ ds[k]? = some d ∧
        FloatVal.gt d.humidity (.finite 35) = true) ∧
    ((stateBefore s ds i).gasAlertSent = true →
      (stateBefore s ds (i + 1)).gasAlertSent = false →
      ∃ d, ds[i]? = some d ∧ d.gasLevel < 250) ∧
    (gasAlertAt s ds i = true →
      ∃ d, ds[i]? = some d ∧ d.gasLevel ≥ 300 ∧
        (stateBefore s ds i).gasAlertSent = false) ∧
    (∀ j, i < j → gasAlertAt s ds i = true → gasAlertAt s ds j = true →
      ∃ k d, i < k ∧ k < j ∧ ds[k]? = some d ∧ d.gasLevel < 250) := by
  refine ⟨temp_disarm s ds i, ?_, fun j hij => temp_between s ds i j hij,
    humidity_disarm s ds i, ?_, fun j hij => humidity_between s ds i j hij,
    gas_disarm s ds i, ?_, fun j hij => gas_between s ds i j hij⟩
  · intro h
    obtain ⟨d, h1, h2, h3, _⟩ := temp_alert s ds i h
    exact ⟨d, h1, h2, h3⟩
  · intro h
    obtain ⟨d, h1, h2, h3, _⟩ := humidity_alert s ds i h
    exact ⟨d, h1, h2, h3⟩
  · intro h
    obtain ⟨d, h1, h2, h3, _⟩ := gas_alert s ds i h
    exact ⟨d, h1, h2, h3⟩

/-- Claim C8 at a concrete run: over `threeReadings` from the initial state the
temperature alert is emitted at indices 0 and 2, and the theorem yields the
reset reading between them. -/
theorem c8_hysteresis_witness :
    tempAlertAt initialState threeReadings 0 = true ∧
    tempAlertAt initialState threeReadings 2 = true ∧
    ∃ k d, 0 < k ∧ k < 2 ∧ threeReadings[k]? = some d ∧
      FloatVal.lt d.temperature (.finite 35) = true :=
  ⟨by decide, by decide,
    (c8_hysteresis initialState threeReadings 0).2.2.1 2 (by decide) (by decide) (by decide)⟩

/-! ## Claims on `readSensors` -/

theorem readSensors_gasLevel (env : Env) :
    (readSensors env).1.gasLevel = map env.mqRaw 0 1023 0 500 := by
  unfold readSensors
  simp only []
  split <;> rfl

theorem readSensors_of_nan (env : Env)
    (h : env.dhtTemperature.isnan = true ∨ env.dhtHumidity.isnan = true) :
    (readSensors env).1.temperature = .finite (-999) ∧
      (readSensors env).1.humidity = .finite (-999) := by
  have hc : (env.dhtTemperature.isnan || env.dhtHumidity.isnan) = true := by
    simpa [Bool.or_eq_true] using h
  simp [readSensors, hc]

/-- Claim C6: for every raw analog value `mqRaw` with `0 <= mqRaw <= 1023`, the
`gasLevel` of the reading `readSensors` returns is `map(mqRaw, 0, 1023, 0, 500)`,
which is `mqRaw * 500 / 1023` with truncating division, and lies in `[0, 500]`;
moreover `map` sends 0 to 0 and 1023 to 500. -/
theorem c6_gasLevel_range (env : Env) (h0 : 0 ≤ env.mqRaw) (h1 : env.mqRaw ≤ 1023) :
    (readSensors env).1.gasLevel = Int.tdiv (env.mqRaw * 500) 1023 ∧
    0 ≤ (readSensors env).1.gasLevel ∧ (readSensors env).1.gasLevel ≤ 500 ∧
    map 0 0 1023 0 500 = 0 ∧ map 1023 0 1023 0 500 = 500 := by
  have hmap : map env.mqRaw 0 1023 0 500 = Int.tdiv (env.mqRaw * 500) 1023 := by
    simp [map]
  have hdiv : Int.tdiv (env.mqRaw * 500) 1023 = env.mqRaw * 500 / 1023 :=
    Int.tdiv_eq_ediv (by omega) (by decide)
  rw [readSensors_gasLevel, hmap, hdiv]
  refine ⟨rfl, by omega, by omega, by decide, by decide⟩

/-- Claim C6 at the raw value 200, where the gas level is 97. -/
theorem c6_gasLevel_range_witness :
    (readSensors (tickAt 0)).1.gasLevel = 97 ∧
    0 ≤ (readSensors (tickAt 0)).1.gasLevel ∧ (readSensors (tickAt 0)).1.gasLevel ≤ 500 := by
  have h := c6_gasLevel_range (tickAt 0) (by decide) (by decide)
  exact ⟨by decide, h.2.1, h.2.2.1⟩

/-- Claim C7: when the DHT driver returns not-a-number for the temperature, for
the humidity, or for both, `readSensors` returns temperature -999 and humidity
-999 and invokes `reportError` exactly once, with code `DHT_ERROR` and severity
6; when neither value is not-a-number, the returned temperature and humidity
are the driver's and `reportError` is not invoked. -/
theorem c7_nan_sentinel (env : Env) :
    ((env.dhtTemperature.isnan = true ∨ env.dhtHumidity.isnan = true) →
      (readSensors env).1.temperature = .finite (-999) ∧
      (readSensors env).1.humidity = .finite (-999) ∧
      (readSensors env).2.countP Event.isReportError = 1 ∧
      .call (.reportError "DHT_ERROR" "DHT22 sensor not responding" 6) ∈
        (readSensors env).2) ∧
    ((env.dhtTemperature.isnan = false ∧ env.dhtHumidity.isnan = false) →
      (readSensors env).1.temperature = env.dhtTemperature ∧
      (readSensors env).1.humidity = env.dhtHumidity ∧
      (readSensors env).2.countP Event.isReportError = 0) := by
  constructor
  · intro h
    have hc : (env.dhtTemperature.isnan || env.dhtHumidity.isnan) = true := by
      simpa [Bool.or_eq_true] using h
    cases hw : env.wifiError <;> by_cases hr : env.errorResponse = 200 <;>
      simp [readSensors, hc, reportError, getBatteryLevel, hw, hr, Event.isReportError,
        List.countP_cons]
  · rintro ⟨ht, hh⟩
    simp [readSensors, ht, hh, getBatteryLevel, Event.isReportError, List.countP_cons]

/-- Claim C7 at a tick whose temperature read is not-a-number and whose humidity
read is 60: both fields of the reading are -999 and `reportError` is invoked
once. -/
theorem c7_nan_sentinel_witness :
    (readSensors { tickAt 0 with dhtTemperature := .nan }).1.temperature = .finite (-999) ∧
    (readSensors { tickAt 0 with dhtTemperature := .nan }).1.humidity = .finite (-999) ∧
    (readSensors { tickAt 0 with dhtTemperature := .nan }).2.countP Event.isReportError = 1 ∧
    .call (.reportError "DHT_ERROR" "DHT22 sensor not responding" 6) ∈
      (readSensors { tickAt 0 with dhtTemperature := .nan }).2 :=
  (c7_nan_sentinel { tickAt 0 with dhtTemperature := .nan }).1 (Or.inl rfl)

/-! ## Claims on `fetchDeviceConfig` -/

theorem fetchDeviceConfig_unchanged (connected : Bool) (code : Int) (doc : Json)
    (s : DeviceState)
    (h : connected = false ∨ code ≠ 200 ∨ (doc.get "success").isTrue = false) :
    (fetchDeviceConfig connected code doc s).1 = s := by
  unfold fetchDeviceConfig
  rcases h with h | h | h
  · simp [h]
  · cases connected <;> simp [h]
  · split <;> [(split <;> simp [h]); rfl]

theorem fetchDeviceConfig_frame (connected : Bool) (code : Int) (doc : Json)
    (s : DeviceState) :
    (fetchDeviceConfig connected code doc s).1 =
      { s with
        reportingInterval := (fetchDeviceConfig connected code doc s).1.reportingInterval
        heartbeatInterval := (fetchDeviceConfig connected code doc s).1.heartbeatInterval } := by
  unfold fetchDeviceConfig
  split <;> [(split <;> [(split <;> rfl); rfl]); rfl]

/-- Claim C5: for every prior state and every status-200 configuration response
whose top-level `success` member is `false`, whatever else the document holds,
`fetchDeviceConfig` leaves `reportingInterval` and `heartbeatInterval`
unchanged. -/
theorem c5_success_false_keeps_intervals (s : DeviceState) (doc : Json)
    (h : doc.get "success" = .bool false) :
    (fetchDeviceConfig true 200 doc s).1.reportingInterval = s.reportingInterval ∧
      (fetchDeviceConfig true 200 doc s).1.heartbeatInterval = s.heartbeatInterval := by
  rw [fetchDeviceConfig_unchanged true 200 doc s (Or.inr (Or.inr (by rw [h]; rfl)))]
  exact ⟨rfl, rfl⟩

/-- Claim C5 at the state with intervals 90000 and 15000 and a refused document
that carries the values 5000 and 7000: the intervals stay 90000 and 15000. -/
theorem c5_success_false_keeps_intervals_witness :
    (fetchDeviceConfig true 200 refusedDoc tunedState).1.reportingInterval = 90000 ∧
      (fetchDeviceConfig true 200 refusedDoc tunedState).1.heartbeatInterval = 15000 :=
  c5_success_false_keeps_intervals tunedState refusedDoc rfl

/-- Claim C4, as amended: for every prior state, when `fetchDeviceConfig`
receives status 200 with the body `{success:true, data:{reportingInterval:120000}}`
(`heartbeatInterval` absent), `reportingInterval` becomes 120000 and
`heartbeatInterval` becomes the compiled default 30000, whatever value it held
before the fetch. -/
theorem c4_absent_heartbeat_gets_default (s : DeviceState) :
    (fetchDeviceConfig true 200 reportingOnlyDoc s).1.reportingInterval = 120000 ∧
      (fetchDeviceConfig true 200 reportingOnlyDoc s).1.heartbeatInterval = 30000 := by
  constructor <;> rfl

/-- Claim C4, refuted as stated: from a state whose `heartbeatInterval` is 15000,
the fetch of `{success:true, data:{reportingInterval:120000}}` sets
`reportingInterval` to 120000 and does not retain 15000: `heartbeatInterval` is
30000 afterwards. -/
theorem c4_previous_heartbeat_not_retained :
    tunedState.heartbeatInterval = 15000 ∧
    (fetchDeviceConfig true 200 reportingOnlyDoc tunedState).1.reportingInterval = 120000 ∧
    (fetchDeviceConfig true 200 reportingOnlyDoc tunedState).1.heartbeatInterval = 30000 ∧
    (fetchDeviceConfig true 200 reportingOnlyDoc tunedState).1.heartbeatInterval ≠
      tunedState.heartbeatInterval := by
  decide

/-! ## The events of each function -/

theorem readSensors_counts (env : Env) :
    (readSensors env).2.countP Event.isSendHeartbeat = 0 ∧
    (readSensors env).2.countP Event.isSendSensorData = 0 ∧
    (readSensors env).2.countP Event.isFetchDeviceConfig = 0 := by
  unfold readSensors
  simp only []
  split
  · cases env.wifiError <;> by_cases hr : env.errorResponse = 200 <;>
      simp [reportError, getBatteryLevel, hr, Event.isSendHeartbeat, Event.isSendSensorData,
        Event.isFetchDeviceConfig, List.countP_cons]
  · simp [getBatteryLevel, Event.isSendHeartbeat, Event.isSendSensorData,
      Event.isFetchDeviceConfig, List.countP_cons]

theorem sendHeartbeat_counts (connected : Bool) (code : Int) (data : SensorData) :
    (sendHeartbeat connected code data).countP Event.isSendHeartbeat = 1 ∧
    (sendHeartbeat connected code data).countP Event.isSendSensorData = 0 ∧
    (sendHeartbeat connected code data).countP Event.isFetchDeviceConfig = 0 := by
  cases connected <;> by_cases hr : code = 200 <;>
    simp [sendHeartbeat, hr, Event.isSendHeartbeat, Event.isSendSensorData,
      Event.isFetchDeviceConfig, List.countP_cons]

theorem sendSensorData_counts (connected : Bool) (code : Int) (data : SensorData) :
    (sendSensorData connected code data).countP Event.isSendHeartbeat = 0 ∧
    (sendSensorData connected code data).countP Event.isSendSensorData = 1 ∧
    (sendSensorData connected code data).countP Event.isFetchDeviceConfig = 0 := by
  cases connected <;> by_cases hr : code = 201 <;>
    simp [sendSensorData, hr, Event.isSendHeartbeat, Event.isSendSensorData,
      Event.isFetchDeviceConfig, List.countP_cons]

theorem fetchDeviceConfig_counts (connected : Bool) (code : Int) (doc : Json)
    (s : DeviceState) :
    (fetchDeviceConfig connected code doc s).2.countP Event.isSendHeartbeat = 0 ∧
    (fetchDeviceConfig connected code doc s).2.countP Event.isSendSensorData = 0 ∧
    (fetchDeviceConfig connected code doc s).2.countP Event.isFetchDeviceConfig = 1 := by
  cases connected <;> by_cases hr : code = 200 <;>
    cases hs : (doc.get "success").isTrue <;>
    simp [fetchDeviceConfig, hr, hs, Event.isSendHeartbeat, Event.isSendSensorData,
      Event.isFetchDeviceConfig, List.countP_cons]

theorem checkAlertConditions_counts (data : SensorData) (s : DeviceState) :
    (checkAlertConditions data s).2.countP Event.isSendHeartbeat = 0 ∧
    (checkAlertConditions data s).2.countP Event.isSendSensorData = 0 ∧
    (checkAlertConditions data s).2.countP Event.isFetchDeviceConfig = 0 := by
  simp only [checkAlertConditions, checkTemperature_events, checkHumidity_events,
    checkGas_events]
  refine ⟨?_, ?_, ?_⟩ <;> (repeat' split) <;>
    simp [Event.isSendHeartbeat, Event.isSendSensorData, Event.isFetchDeviceConfig,
      List.countP_cons]

/-! ## The three scheduled steps of `loop` -/

theorem heartbeatStep_state (env : Env) (data : SensorData) (s : DeviceState) :
    (heartbeatStep env data s).1 =
      { s with lastHeartbeat :=
          if elapsed (millis env.millisHeartbeat) s.lastHeartbeat > toULong s.heartbeatInterval
          then millis env.millisAfterHeartbeat else s.lastHeartbeat } := by
  unfold heartbeatStep
  split <;> rfl

theorem heartbeatStep_counts (env : Env) (data : SensorData) (s : DeviceState) :
    (heartbeatStep env data s).2.countP Event.isSendHeartbeat =
      (if elapsed (millis env.millisHeartbeat) s.lastHeartbeat > toULong s.heartbeatInterval
        then 1 else 0) ∧
    (heartbeatStep env data s).2.countP Event.isSendSensorData = 0 ∧
    (heartbeatStep env data s).2.countP Event.isFetchDeviceConfig = 0 := by
  unfold heartbeatStep
  split
  · exact sendHeartbeat_counts _ _ _
  · exact ⟨rfl, rfl, rfl⟩

theorem dataStep_state (env : Env) (data : SensorData) (s : DeviceState) :
    (dataStep env data s).1 =
      { s with lastDataSend :=
          if elapsed (millis env.millisData) s.lastDataSend > toULong s.reportingInterval
          then millis env.millisAfterData else s.lastDataSend } := by
  unfold dataStep
  split <;> rfl

theorem dataStep_counts (env : Env) (data : SensorData) (s : DeviceState) :
    (dataStep env data s).2.countP Event.isSendHeartbeat = 0 ∧
    (dataStep env data s).2.countP Event.isSendSensorData =
      (if elapsed (millis env.millisData) s.lastDataSend > toULong s.reportingInterval
        then 1 else 0) ∧
    (dataStep env data s).2.countP Event.isFetchDeviceConfig = 0 := by
  unfold dataStep
  split
  · exact sendSensorData_counts _ _ _
  · exact ⟨rfl, rfl, rfl⟩

theorem configStep_state (env : Env) (s : DeviceState) :
    (configStep env s).1 =
      if elapsed (millis env.millisConfig) s.lastConfigFetch > toULong 600000 then
        { s with
          lastConfigFetch := millis env.millisAfterConfig
          reportingInterval :=
            (fetchDeviceConfig env.wifiConfig env.configResponse env.configDoc s).1.reportingInterval
          heartbeatInterval :=
            (fetchDeviceConfig env.wifiConfig env.configResponse env.configDoc s).1.heartbeatInterval }
      else s := by
  unfold configStep
  split
  · simp only []
    rw [fetchDeviceConfig_frame]
  · rfl

theorem configStep_counts (env : Env) (s : DeviceState) :
    (configStep env s).2.countP Event.isSendHeartbeat = 0 ∧
    (configStep env s).2.countP Event.isSendSensorData = 0 ∧
    (configStep env s).2.countP Event.isFetchDeviceConfig =
      (if elapsed (millis env.millisConfig) s.lastConfigFetch > toULong 600000
        then 1 else 0) := by
  unfold configStep
  split
  · exact fetchDeviceConfig_counts _ _ _ _
  · exact ⟨rfl, rfl, rfl⟩

/-- The state and the events of a tick that finds the link up. -/
theorem loop_connected (env : Env) (s : DeviceState) (hw : env.wifiLoop = true) :
    loop env s =
      ((checkAlertConditions (readSensors env).1
          (configStep env (dataStep env (readSensors env).1
            (heartbeatStep env (readSensors env).1 s).1).1).1).1,
        (readSensors env).2 ++ (heartbeatStep env (readSensors env).1 s).2 ++
          (dataStep env (readSensors env).1 (heartbeatStep env (readSensors env).1 s).1).2 ++
          (configStep env (dataStep env (readSensors env).1
            (heartbeatStep env (readSensors env).1 s).1).1).2 ++
          (checkAlertConditions (readSensors env).1
            (configStep env (dataStep env (readSensors env).1
              (heartbeatStep env (readSensors env).1 s).1).1).1).2 ++
          [.delay 1000]) := by
  simp [loop, hw]

theorem toULong_of_nonneg (i : Int) (h0 : 0 ≤ i) (h1 : i ≤ 2147483647) :
    (toULong i : Int) = i := by
  unfold toULong ulongModulus
  have h2 : i % ((2 ^ 32 : Nat) : Int) = i := Int.emod_eq_of_lt h0 (by norm_num; omega)
  rw [h2]
  exact Int.toNat_of_nonneg h0

theorem loop_connected_timers (env : Env) (s : DeviceState) (hw : env.wifiLoop = true) :
    (loop env s).1.lastHeartbeat =
      (if elapsed (millis env.millisHeartbeat) s.lastHeartbeat > toULong s.heartbeatInterval
        then millis env.millisAfterHeartbeat else s.lastHeartbeat) ∧
    (loop env s).1.lastDataSend =
      (if elapsed (millis env.millisData) s.lastDataSend > toULong s.reportingInterval
        then millis env.millisAfterData else s.lastDataSend) ∧
    (loop env s).1.lastConfigFetch =
      (if elapsed (millis env.millisConfig) s.lastConfigFetch > toULong 600000
        then millis env.millisAfterConfig else s.lastConfigFetch) := by
  rw [loop_connected env s hw]
  simp only [checkAlertConditions_state, configStep_state, dataStep_state,
    heartbeatStep_state]
  refine ⟨?_, ?_, ?_⟩ <;> split_ifs <;> rfl

theorem loop_connected_counts (env : Env) (s : DeviceState) (hw : env.wifiLoop = true) :
    (loop env s).2.countP Event.isSendHeartbeat =
      (if elapsed (millis env.millisHeartbeat) s.lastHeartbeat > toULong s.heartbeatInterval
        then 1 else 0) ∧
    (loop env s).2.countP Event.isSendSensorData =
      (if elapsed (millis env.millisData) s.lastDataSend > toULong s.reportingInterval
        then 1 else 0) ∧
    (loop env s).2.countP Event.isFetchDeviceConfig =
      (if elapsed (millis env.millisConfig) s.lastConfigFetch > toULong 600000
        then 1 else 0) := by
  rw [loop_connected env s hw]
  simp only [List.countP_append, readSensors_counts, heartbeatStep_counts, dataStep_counts,
    configStep_counts, checkAlertConditions_counts, dataStep_state, heartbeatStep_state]
  simp [List.countP_cons, Event.isSendHeartbeat, Event.isSendSensorData,
    Event.isFetchDeviceConfig]

/-! ## Claims on `loop` -/

/-- Claim C2, as amended: on a tick that finds the link up, for each of the three
scheduled actions (heartbeat, sensor-data send, configuration fetch), with the
elapsed time `millis() - lastX` computed in `unsigned long` and the interval
converted to `unsigned long` (the interval itself when it is a non-negative
`int`; 600000 for the configuration fetch): if the elapsed time is less than or
equal to the interval, the action does not fire and `lastX` is unchanged; if the
elapsed time is greater than the interval, the action fires exactly once in that
tick and `lastX` is set to the time read after the action. -/
theorem c2_fires_past_interval (env : Env) (s : DeviceState) (hw : env.wifiLoop = true) :
    (elapsed (millis env.millisHeartbeat) s.lastHeartbeat ≤ toULong s.heartbeatInterval →
      (loop env s).2.countP Event.isSendHeartbeat = 0 ∧
        (loop env s).1.lastHeartbeat = s.lastHeartbeat) ∧
    (toULong s.heartbeatInterval < elapsed (millis env.millisHeartbeat) s.lastHeartbeat →
      (loop env s).2.countP Event.isSendHeartbeat = 1 ∧
        (loop env s).1.lastHeartbeat = millis env.millisAfterHeartbeat) ∧
    (elapsed (millis env.millisData) s.lastDataSend ≤ toULong s.reportingInterval →
      (loop env s).2.countP Event.isSendSensorData = 0 ∧
        (loop env s).1.lastDataSend = s.lastDataSend) ∧
    (toULong s.reportingInterval < elapsed (millis env.millisData) s.lastDataSend →
      (loop env s).2.countP Event.isSendSensorData = 1 ∧
        (loop env s).1.lastDataSend = millis env.millisAfterData) ∧
    (elapsed (millis env.millisConfig) s.lastConfigFetch ≤ 600000 →
      (loop env s).2.countP Event.isFetchDeviceConfig = 0 ∧
        (loop env s).1.lastConfigFetch = s.lastConfigFetch) ∧
    (600000 < elapsed (millis env.millisConfig) s.lastConfigFetch →
      (loop env s).2.countP Event.isFetchDeviceConfig = 1 ∧
        (loop env s).1.lastConfigFetch = millis env.millisAfterConfig) ∧
    (∀ i : Int, 0 ≤ i → i ≤ 2147483647 → (toULong i : Int) = i) := by
  obtain ⟨t1, t2, t3⟩ := loop_connected_timers env s hw
  obtain ⟨c1, c2, c3⟩ := loop_connected_counts env s hw
  have h6 : toULong 600000 = 600000 := by decide
  rw [h6] at t3 c3
  refine ⟨?_, ?_, ?_, ?_, ?_, ?_, toULong_of_nonneg⟩
  · intro h
    rw [c1, t1, if_neg (Nat.not_lt.mpr h), if_neg (Nat.not_lt.mpr h)]
    exact ⟨rfl, rfl⟩
  · intro h
    rw [c1, t1, if_pos h, if_pos h]
    exact ⟨rfl, rfl⟩
  · intro h
    rw [c2, t2, if_neg (Nat.not_lt.mpr h), if_neg (Nat.not_lt.mpr h)]
    exact ⟨rfl, rfl⟩
  · intro h
    rw [c2, t2, if_pos h, if_pos h]
    exact ⟨rfl, rfl⟩
  · intro h
    rw [c3, t3, if_neg (Nat.not_lt.mpr h), if_neg (Nat.not_lt.mpr h)]
    exact ⟨rfl, rfl⟩
  · intro h
    rw [c3, t3, if_pos h, if_pos h]
    exact ⟨rfl, rfl⟩

/-- Claim C2 at the tick at time 30001 from the initial state: 30001 ms have
elapsed since the last heartbeat, the heartbeat interval is 30000, the heartbeat
fires once and `lastHeartbeat` becomes 30001; 30001 is not past the reporting
interval 60000, so no data is sent and `lastDataSend` stays 0. -/
theorem c2_fires_past_interval_witness :
    ((loop (tickAt 30001) initialState).2.countP Event.isSendHeartbeat = 1 ∧
      (loop (tickAt 30001) initialState).1.lastHeartbeat = 30001) ∧
    ((loop (tickAt 30001) initialState).2.countP Event.isSendSensorData = 0 ∧
      (loop (tickAt 30001) initialState).1.lastDataSend = 0) :=
  ⟨(c2_fires_past_interval (tickAt 30001) initialState rfl).2.1 (by decide),
    (c2_fires_past_interval (tickAt 30001) initialState rfl).2.2.1 (by decide)⟩

/-- Claim C2, refuted as stated: on connected ticks from the initial state at
which the elapsed time equals the interval exactly (30000 for the heartbeat,
60000 for the data send, 600000 for the configuration fetch), the action does
not fire and `lastX` is not reset to the current time. -/
theorem c2_no_fire_at_exact_interval :
    (tickAt 30000).wifiLoop = true ∧
    (elapsed (millis (tickAt 30000).millisHeartbeat) initialState.lastHeartbeat : Int) =
      initialState.heartbeatInterval ∧
    (loop (tickAt 30000) initialState).2.countP Event.isSendHeartbeat = 0 ∧
    (loop (tickAt 30000) initialState).1.lastHeartbeat = 0 ∧
    (elapsed (millis (tickAt 60000).millisData) initialState.lastDataSend : Int) =
      initialState.reportingInterval ∧
    (loop (tickAt 60000) initialState).2.countP Event.isSendSensorData = 0 ∧
    (loop (tickAt 60000) initialState).1.lastDataSend = 0 ∧
    elapsed (millis (tickAt 600000).millisConfig) initialState.lastConfigFetch = 600000 ∧
    (loop (tickAt 600000) initialState).2.countP Event.isFetchDeviceConfig = 0 ∧
    (loop (tickAt 600000) initialState).1.lastConfigFetch = 0 := by
  decide

theorem scheduled_steps_keep (env : Env) (data : SensorData) (s : DeviceState) :
    (configStep env (dataStep env data (heartbeatStep env data s).1).1).1.tempAlertSent =
      s.tempAlertSent ∧
    (configStep env (dataStep env data (heartbeatStep env data s).1).1).1.humidityAlertSent =
      s.humidityAlertSent ∧
    (configStep env (dataStep env data (heartbeatStep env data s).1).1).1.gasAlertSent =
      s.gasAlertSent ∧
    (dataStep env data (heartbeatStep env data s).1).1.reportingInterval =
      s.reportingInterval ∧
    (dataStep env data (heartbeatStep env data s).1).1.heartbeatInterval =
      s.heartbeatInterval := by
  simp only [configStep_state, dataStep_state, heartbeatStep_state]
  refine ⟨?_, ?_, ?_, trivial, trivial⟩ <;> split_ifs <;> rfl

theorem waitForWiFi_events (poll : Nat → Bool) (remaining attempts : Nat) :
    ∀ e ∈ (waitForWiFi poll remaining attempts).2, e = .delay 1000 ∨ e = .serial .dot := by
  induction remaining generalizing attempts with
  | zero => simp [waitForWiFi]
  | succ n ih =>
    intro e he
    unfold waitForWiFi at he
    split at he
    · simp only [List.mem_cons] at he
      rcases he with he | he | he
      · exact Or.inl he
      · exact Or.inr he
      · exact ih (attempts + 1) e he
    · simp at he

theorem setupWiFi_events (poll : Nat → Bool) :
    ∀ e ∈ setupWiFi poll,
      e = .call .setupWiFi ∨ e = .wifiBegin ∨ (∃ m, e = .serial m) ∨
        (∃ b, e = .digitalWrite b) ∨ e = .delay 1000 := by
  intro e he
  unfold setupWiFi at he
  simp only [List.mem_append, List.mem_cons, List.mem_singleton, List.not_mem_nil,
    or_false] at he
  rcases he with ((he | he | he) | he) | he
  · exact Or.inl he
  · exact Or.inr (Or.inl he)
  · exact Or.inr (Or.inr (Or.inl ⟨_, he⟩))
  · rcases waitForWiFi_events poll 30 0 e he with h | h
    · exact Or.inr (Or.inr (Or.inr (Or.inr h)))
    · exact Or.inr (Or.inr (Or.inl ⟨_, h⟩))
  · split at he
    · simp only [List.mem_cons, List.mem_singleton, List.not_mem_nil, or_false] at he
      rcases he with he | he
      · exact Or.inr (Or.inr (Or.inl ⟨_, he⟩))
      · exact Or.inr (Or.inr (Or.inr (Or.inl ⟨_, he⟩)))
    · simp only [List.mem_cons, List.mem_singleton, List.not_mem_nil, or_false] at he
      rcases he with he | he
      · exact Or.inr (Or.inr (Or.inl ⟨_, he⟩))
      · exact Or.inr (Or.inr (Or.inr (Or.inl ⟨_, he⟩)))

/-- Claim C9: for every device state, a tick of `loop` that finds the link down
at its connectivity check returns the state it was given, so `lastHeartbeat`,
`lastDataSend`, `lastConfigFetch`, `reportingInterval`, `heartbeatInterval` and
the three alert latches are unchanged; and none of its events is an invocation
of `readSensors`, `sendHeartbeat`, `sendSensorData`, `fetchDeviceConfig` or
`reportError`, nor an HTTP request. -/
theorem c9_link_down_aborts (env : Env) (s : DeviceState) (hw : env.wifiLoop = false) :
    (loop env s).1 = s ∧
    ∀ e ∈ (loop env s).2,
      e.isReadSensors = false ∧ e.isSendHeartbeat = false ∧ e.isSendSensorData = false ∧
        e.isFetchDeviceConfig = false ∧ e.isReportError = false ∧ e.isRequest = false := by
  simp only [loop, hw, if_true, true_and]
  intro e he
  simp only [List.mem_cons] at he
  rcases he with he | he
  · subst he
    exact ⟨rfl, rfl, rfl, rfl, rfl, rfl⟩
  · rcases setupWiFi_events env.wifiPoll e he with h | h | ⟨m, h⟩ | ⟨b, h⟩ | h <;>
      subst h <;> exact ⟨rfl, rfl, rfl, rfl, rfl, rfl⟩

/-- Claim C9 at a tick whose link is down and stays down, from a state with
tuned intervals: the state is returned as it was and the tick has events, none
of them a request. -/
theorem c9_link_down_aborts_witness :
    (loop linkDownTick tunedState).1 = tunedState ∧
    (loop linkDownTick tunedState).2.length = 66 ∧
    ∀ e ∈ (loop linkDownTick tunedState).2,
      e.isReadSensors = false ∧ e.isSendHeartbeat = false ∧ e.isSendSensorData = false ∧
        e.isFetchDeviceConfig = false ∧ e.isReportError = false ∧ e.isRequest = false :=
  ⟨(c9_link_down_aborts linkDownTick tunedState rfl).1, by decide,
    (c9_link_down_aborts linkDownTick tunedState rfl).2⟩

/-! ## A connected tick with a failed DHT read -/

theorem checkAlertConditions_sentinel (d : SensorData) (s : DeviceState)
    (ht : d.temperature = .finite (-999)) (hh : d.humidity = .finite (-999)) :
    (checkAlertConditions d s).1.tempAlertSent = false ∧
    (checkAlertConditions d s).1.humidityAlertSent = true ∧
    (s.humidityAlertSent = false →
      .serial (.criticalLowHumidityAlert (.finite (-999))) ∈ (checkAlertConditions d s).2) := by
  have h1 : FloatVal.ge (.finite (-999)) (.finite 40) = false := by decide
  have h2 : FloatVal.lt (.finite (-999)) (.finite 35) = true := by decide
  have h3 : FloatVal.le (.finite (-999)) (.finite 25) = true := by decide
  have h4 : FloatVal.gt (.finite (-999)) (.finite 35) = false := by decide
  refine ⟨?_, ?_, ?_⟩
  · simp [checkAlertConditions_state, checkTemperature_latch, ht, h1, h2]
  · cases hs : s.humidityAlertSent <;>
      simp [checkAlertConditions_state, checkHumidity_latch, hh, h3, h4, hs]
  · intro hs
    have hk : (checkTemperature d s).1.humidityAlertSent = false := by
      rw [checkTemperature_frame]
      exact hs
    simp [checkAlertConditions, checkHumidity_events, hh, h3, hk]

/-- Claim C10: on a connected tick in which the DHT driver returns not-a-number
for the temperature or the humidity, the reading `readSensors` returns has
temperature and humidity -999 and is the argument `loop` passes to
`checkAlertConditions`; if the humidity latch is unarmed before the tick the
low-humidity alert is emitted, with the value -999; the humidity latch is armed
after the tick; and the temperature latch is unarmed after the tick, whatever
it was before. -/
theorem c10_sentinel_reaches_alert_monitor (env : Env) (s : DeviceState)
    (hw : env.wifiLoop = true)
    (hn : env.dhtTemperature.isnan = true ∨ env.dhtHumidity.isnan = true) :
    (readSensors env).1.temperature = .finite (-999) ∧
    (readSensors env).1.humidity = .finite (-999) ∧
    .call (.checkAlertConditions (readSensors env).1) ∈ (loop env s).2 ∧
    (s.humidityAlertSent = false →
      .serial (.criticalLowHumidityAlert (.finite (-999))) ∈ (loop env s).2) ∧
    (loop env s).1.humidityAlertSent = true ∧
    (loop env s).1.tempAlertSent = false := by
  obtain ⟨ht, hh⟩ := readSensors_of_nan env hn
  obtain ⟨k1, k2, _, _, _⟩ := scheduled_steps_keep env (readSensors env).1 s
  obtain ⟨a1, a2, a4⟩ := checkAlertConditions_sentinel (readSensors env).1
    (configStep env (dataStep env (readSensors env).1
      (heartbeatStep env (readSensors env).1 s).1).1).1 ht hh
  rw [loop_connected env s hw]
  refine ⟨ht, hh, ?_, ?_, a2, a1⟩
  · simp [checkAlertConditions]
  · intro hs
    have := a4 (by rw [k2]; exact hs)
    simp only [List.mem_append]
    exact Or.inl (Or.inr this)

/-- Claim C10 at a connected tick whose temperature read is not-a-number, from
the initial state with the temperature latch armed: the low-humidity alert is
emitted, the humidity latch ends armed and the temperature latch unarmed. -/
theorem c10_sentinel_reaches_alert_monitor_witness :
    .serial (.criticalLowHumidityAlert (.finite (-999))) ∈
      (loop nanTick { initialState with tempAlertSent := true }).2 ∧
    (loop nanTick { initialState with tempAlertSent := true }).1.humidityAlertSent = true ∧
    (loop nanTick { initialState with tempAlertSent := true }).1.tempAlertSent = false :=
  ⟨(c10_sentinel_reaches_alert_monitor nanTick { initialState with tempAlertSent := true }
      rfl (Or.inl rfl)).2.2.2.1 rfl,
    (c10_sentinel_reaches_alert_monitor nanTick { initialState with tempAlertSent := true }
      rfl (Or.inl rfl)).2.2.2.2⟩

end RelaWand
